import Mathlib

/-
  Verification development for the Telegram auto-post bot (`bot.py`).

  The bot's handlers are shallowly embedded as pure Lean functions:
  * text is modelled as `List Char`;
  * the platform client (get_chat_member / send_*) is a function argument,
    so each possible platform outcome is an explicit value;
  * Python exceptions that the code catches are modelled by the value the
    handler returns on that path;
  * the process-wide per-user stores (`posts_data`, `user_channels`) are
    modelled by the single user's entry that a handler reads and writes.
-/

namespace AutoPostBot

/-- Character strings, modelled as lists of characters. -/
abbrev Str := List Char

/-! ### Python string primitives used by the handlers -/

/-- Whitespace characters removed by Python `str.strip()` (ASCII subset). -/
def isPySpace (c : Char) : Bool :=
  c == ' ' || c == '\t' || c == '\n' || c == '\r' || c == Char.ofNat 11 || c == Char.ofNat 12

/-- Python `str.lstrip()`. -/
def lstrip (s : Str) : Str := s.dropWhile isPySpace

/-- Python `str.rstrip()`. -/
def rstrip (s : Str) : Str := (s.reverse.dropWhile isPySpace).reverse

/-- Python `str.strip()`. -/
def pyStrip (s : Str) : Str := lstrip (rstrip s)

/-- Python `str.split(sep)` for a single-character separator: splits on every
occurrence, keeping empty parts, and yields one part even for the empty string. -/
def pySplit (sep : Char) : Str → List Str
  | [] => [[]]
  | c :: rest =>
    if c = sep then
      [] :: pySplit sep rest
    else
      match pySplit sep rest with
      | [] => [[c]]
      | part :: parts => (c :: part) :: parts

/-- Numeric value of an ASCII digit. -/
def digitVal (c : Char) : Nat := c.toNat - 48

/-- Digit tail of Python `int()`: after the first digit, further digits with
single underscores allowed only between digits. -/
def pyIntGo : Nat → Str → Option Nat
  | acc, [] => some acc
  | _, '_' :: [] => none
  | acc, '_' :: d :: rest =>
    if d.isDigit then pyIntGo (acc * 10 + digitVal d) rest else none
  | acc, c :: rest =>
    if c.isDigit then pyIntGo (acc * 10 + digitVal c) rest else none

/-- Nonempty digit string (with embedded underscores) of Python `int()`. -/
def pyIntDigits : Str → Option Nat
  | [] => none
  | c :: rest => if c.isDigit then pyIntGo (digitVal c) rest else none

/-- Python `int(s)` on a string: strips whitespace, allows one optional sign,
then a nonempty digit sequence; `none` models the `ValueError` raise. -/
def pyInt (s : Str) : Option Int :=
  match pyStrip s with
  | '+' :: rest => (pyIntDigits rest).map (fun n => (n : Int))
  | '-' :: rest => (pyIntDigits rest).map (fun n => -(n : Int))
  | t => (pyIntDigits t).map (fun n => (n : Int))

/-- ASCII lowering, modelling Python `str.lower()` on the ASCII error texts. -/
def pyLower (s : Str) : Str := s.map Char.toLower

/-- Python `pat in s` substring containment. -/
def strContains (pat : Str) : Str → Bool
  | [] => pat.isEmpty
  | c :: rest => pat.isPrefixOf (c :: rest) || strContains pat rest

/-! ### Channels and the platform client interface -/

/-- A destination channel: numeric chat id or textual handle
(Python stores either an `int` or a `str` in `user_channels`). -/
inductive Chan where
  | id (n : Int)
  | handle (s : Str)
deriving DecidableEq

/-- Outcome of the platform's `get_chat_member` call as observed by
`verify_bot_admin`: a member record (status string plus the
`can_post_messages` attribute, `none` when the attribute is absent),
or one of the exceptions the code catches. -/
inductive LookupResult where
  | ok (status : Str) (can_post_messages : Option Bool)
  | forbidden
  | badRequest (msg : Str)
  | err (msg : Str)
deriving DecidableEq

/-- `verify_bot_admin` (bot.py:61-92): returns `(is_admin, error)` exactly as
the Python function does for each outcome of the membership lookup. -/
def verify_bot_admin (r : LookupResult) : Bool × Option Str :=
  match r with
  | .ok status can_post_messages =>
    if status = "administrator".toList ∨ status = "creator".toList then
      if status = "creator".toList then (true, none)
      else
        match can_post_messages with
        | some b =>
          if b || decide (status = "creator".toList) then (true, none)
          else (false, some "Bot doesn't have 'Post Messages' permission".toList)
        | none => (true, none)
    else
      (false, some ("Bot is not an admin (Status: ".toList ++ status ++ ")".toList))
  | .forbidden => (false, some "Bot is not a member of this channel".toList)
  | .badRequest msg =>
    if strContains "chat not found".toList (pyLower msg) then
      (false, some "Channel not found or bot was removed".toList)
    else
      (false, some ("Cannot access channel: ".toList ++ msg))
  | .err msg => (false, some ("Error checking permissions: ".toList ++ msg))

/-! ### Conversation states and the post draft -/

/-- The conversation-handler states (`THUMBNAIL, VIDEO_LINK, TITLE,
SCHEDULE_TIME, CHANNELS = range(5)`) plus `ConversationHandler.END`. -/
inductive ConvState where
  | THUMBNAIL
  | VIDEO_LINK
  | TITLE
  | SCHEDULE_TIME
  | CHANNELS
  | END
deriving DecidableEq

/-- The value stored under `posts_data[user_id]['thumbnail']['type']`. -/
inductive MediaKind where
  | photo
  | video
  | animation
deriving DecidableEq

/-- The `posts_data[...]['thumbnail']` dict: `{'type': ..., 'file_id': ...}`. -/
structure Thumbnail where
  kind : MediaKind
  file_id : Str
deriving DecidableEq

/-- One user's `posts_data` dict. Keys are set incrementally by the wizard, so
each is optional; `none` models an absent key. -/
structure PostData where
  thumbnail : Option Thumbnail := none
  video_link : Option Str := none
  title : Option Str := none
  schedule_time : Option (Int × Int) := none
deriving DecidableEq

/-- Python truthiness of the draft dict: `not post_data` is true exactly when
the dict is empty, i.e. no key has been set. -/
def PostData.isFalsy (d : PostData) : Bool :=
  d.thumbnail.isNone && d.video_link.isNone && d.title.isNone && d.schedule_time.isNone

/-- An incoming wizard message: the media payloads and the text, as read by the
step handlers (`photo` is Telegram's size list, truthy when nonempty). -/
structure Message where
  photo : List Str := []
  video : Option Str := none
  animation : Option Str := none
  text : Str := []

/-! ### Wizard step handlers -/

/-- `receive_thumbnail` (bot.py:165-200): stores the media payload and advances
to `VIDEO_LINK`; a payload that is none of photo/video/animation re-prompts and
stays in `THUMBNAIL` with the draft untouched. -/
def receive_thumbnail (d : PostData) (msg : Message) : PostData × ConvState :=
  if msg.photo ≠ [] then
    ({ d with thumbnail := some ⟨.photo, msg.photo.getLastD []⟩ }, .VIDEO_LINK)
  else
    match msg.video with
    | some v => ({ d with thumbnail := some ⟨.video, v⟩ }, .VIDEO_LINK)
    | none =>
      match msg.animation with
      | some a => ({ d with thumbnail := some ⟨.animation, a⟩ }, .VIDEO_LINK)
      | none => (d, .THUMBNAIL)

/-- `receive_video_link` (bot.py:202-228): strips the text and requires the
stripped link to begin with `http://` or `https://`, otherwise re-prompts
without saving. -/
def receive_video_link (d : PostData) (text : Str) : PostData × ConvState :=
  let link := pyStrip text
  if !("http://".toList.isPrefixOf link || "https://".toList.isPrefixOf link) then
    (d, .VIDEO_LINK)
  else
    ({ d with video_link := some link }, .TITLE)

/-- `receive_title` (bot.py:230-262): strips the text; more than 100 characters
re-prompts without truncating or saving, otherwise the title is stored and the
wizard advances to the delivery choice. -/
def receive_title (d : PostData) (text : Str) : PostData × ConvState :=
  let title := pyStrip text
  if title.length > 100 then
    (d, .TITLE)
  else
    ({ d with title := some title }, .SCHEDULE_TIME)

/-- Result of `receive_schedule_time`: the updated draft, the next conversation
state, and the cron job registered with the scheduler (`some (hour, minute)`
stands for `CronTrigger(hour=hour, minute=minute)`, firing daily). -/
structure ScheduleResult where
  draft : PostData
  next : ConvState
  job : Option (Int × Int)
deriving DecidableEq

/-- The parse step of `receive_schedule_time` (bot.py:310):
`hour, minute = map(int, time_str.split(':'))` — exactly two parts, each a
valid Python integer; `none` models the `ValueError` raise. -/
def parse_schedule (input : Str) : Option (Int × Int) :=
  match pySplit ':' (pyStrip input) with
  | [a, b] =>
    match pyInt a, pyInt b with
    | some hour, some minute => some (hour, minute)
    | _, _ => none
  | _ => none

/-- `receive_schedule_time` (bot.py:302-349): on a valid in-range time, stores
`schedule_time`, registers a daily cron job and ends the conversation; any
`ValueError` (parse failure or out-of-range) re-prompts in state `CHANNELS`
with the draft untouched. -/
def receive_schedule_time (d : PostData) (text : Str) : ScheduleResult :=
  match parse_schedule text with
  | some (hour, minute) =>
    if 0 ≤ hour ∧ hour ≤ 23 ∧ 0 ≤ minute ∧ minute ≤ 59 then
      ⟨{ d with schedule_time := some (hour, minute) }, .END, some (hour, minute)⟩
    else
      ⟨d, .CHANNELS, none⟩
  | none => ⟨d, .CHANNELS, none⟩

/-- `cancel` (bot.py:794-809): deletes the user's draft (if any) and ends the
conversation. -/
def cancel (_store : Option PostData) : Option PostData × ConvState :=
  (none, .END)

/-! ### Post formatting and markdown escaping -/

/-- The reserved characters escaped by `escape_markdown` (bot.py:471), in the
order the loop processes them.  (The backquote is written via its code point.) -/
def escape_chars : List Char :=
  ['_', '*', '[', ']', '(', ')', '~', Char.ofNat 96, '>', '#', '+', '-', '=',
   '|', '{', '}', '.', '!']

/-- One iteration of the escape loop: Python
`text.replace(char, '\\' + char)` for a single-character pattern. -/
def replaceChar (c : Char) (text : Str) : Str :=
  text.flatMap (fun ch => if ch = c then ['\\', c] else [ch])

/-- `escape_markdown` (bot.py:467-477): sequentially replaces every reserved
character by a backslash followed by that character. -/
def escape_markdown (text : Str) : Str :=
  escape_chars.foldl (fun t c => replaceChar c t) text

/-- Whether a character is in the reserved set. -/
def isReserved (c : Char) : Bool := decide (c ∈ escape_chars)

/-- Single-pass view of the escape loop: what one character contributes to the
fully escaped string.  (`escape_markdown` is proved equal to a `flatMap` of
this function, which is what makes the sequential replaces tractable.) -/
def escSingle (ch : Char) : Str :=
  if ch ∈ escape_chars then ['\\', ch] else [ch]

/-- Helper for `noUnescaped`: scans the string remembering the previous
character. -/
def noUnescapedAux : Char → Str → Bool
  | _, [] => true
  | p, c :: rest => (!(isReserved c) || p == '\\') && noUnescapedAux c rest

/-- Every reserved character occurring in the string is immediately preceded by
a backslash escape marker. -/
def noUnescaped : Str → Bool
  | [] => true
  | c :: rest => !(isReserved c) && noUnescapedAux c rest

/-- The fixed template text of `format_post` (bot.py:450-461) before the
escaped title. -/
def post_template_1 : Str :=
  "\n╔══════════════════════╗\n   🌟 *".toList

/-- The fixed template text between the escaped title and the escaped link. -/
def post_template_2 : Str :=
  "* 🌟\n╚══════════════════════╝\n\n🔗 *Watch Now:*\n".toList

/-- The fixed template text after the escaped link (the Python source writes
the footer underscore as a two-character sequence backslash underscore). -/
def post_template_3 : Str :=
  "\n\n━━━━━━━━━━━━━━━━━━━━\n📢 Join: @NeonGhost\\_Network\n━━━━━━━━━━━━━━━━━━━━\n            ".toList

/-- `format_post` (bot.py:440-465): escapes the title (default `'Untitled'`)
and the video link (default empty), interpolates them into the fixed template
and strips surrounding whitespace.  The internal `try` never fires on these
pure string operations. -/
def format_post (d : PostData) : Str :=
  let title := escape_markdown (d.title.getD "Untitled".toList)
  let video_link := escape_markdown (d.video_link.getD [])
  pyStrip (post_template_1 ++ title ++ post_template_2 ++ video_link ++ post_template_3)

/-! ### The broadcast engine -/

/-- Outcome of the platform send call (`send_photo` / `send_video` /
`send_animation`) for one channel: success or one of the exceptions the
per-channel handlers catch. -/
inductive SendResult where
  | ok
  | forbidden (msg : Str)
  | badRequest (msg : Str)
  | err (msg : Str)
deriving DecidableEq

/-- A platform call issued while broadcasting: the membership lookup inside
`verify_bot_admin`, or a media send. -/
inductive PlatCall where
  | getChatMember (c : Chan)
  | sendMedia (c : Chan)
deriving DecidableEq

/-- The channel a `getChatMember` call was made for. -/
def callChan : PlatCall → Option Chan
  | .getChatMember c => some c
  | .sendMedia _ => none

/-- The value `post_to_channels` returns (`success_count, failed_channels`),
instrumented with the ordered trace of platform calls it issued. -/
structure BroadcastOutcome where
  succeeded : Nat
  failures : List (Chan × Option Str)
  calls : List PlatCall
deriving DecidableEq

/-- The per-channel loop of `post_to_channels` (bot.py:375-427): verify
admin status (recording the failure reason and moving on when not admin),
then send, classifying a failed send via the caught exception; one channel's
failure never stops the remaining channels. -/
def broadcast_loop (lookup : Chan → LookupResult) (send : Chan → SendResult) :
    List Chan → BroadcastOutcome
  | [] => ⟨0, [], []⟩
  | c :: rest =>
    let v := verify_bot_admin (lookup c)
    let r := broadcast_loop lookup send rest
    if v.1 then
      match send c with
      | .ok =>
        ⟨r.succeeded + 1, r.failures, .getChatMember c :: .sendMedia c :: r.calls⟩
      | .forbidden _ =>
        ⟨r.succeeded, (c, some "Bot is not admin or was removed".toList) :: r.failures,
          .getChatMember c :: .sendMedia c :: r.calls⟩
      | .badRequest m =>
        ⟨r.succeeded, (c, some ("Invalid request: ".toList ++ m)) :: r.failures,
          .getChatMember c :: .sendMedia c :: r.calls⟩
      | .err m =>
        ⟨r.succeeded, (c, some ("Error: ".toList ++ m.take 50)) :: r.failures,
          .getChatMember c :: .sendMedia c :: r.calls⟩
    else
      ⟨r.succeeded, (c, v.2) :: r.failures, .getChatMember c :: r.calls⟩

/-- `post_to_channels` (bot.py:351-438).  A falsy (absent or empty) draft or an
empty channel list short-circuits with a synthetic `"N/A"` failure before any
platform call.  A non-falsy draft without a `'thumbnail'` key raises `KeyError`
at bot.py:370, which the outer handler catches, returning the accumulated
`(success_count, failed_channels)` — still `(0, [])` at that point.  Otherwise
the caption is rendered (a pure local computation that cannot fail) and the
per-channel loop runs. -/
def post_to_channels (draft : Option PostData) (channels : List Chan)
    (lookup : Chan → LookupResult) (send : Chan → SendResult) : BroadcastOutcome :=
  match draft with
  | none => ⟨0, [(.handle "N/A".toList, some "No post data".toList)], []⟩
  | some d =>
    if d.isFalsy then
      ⟨0, [(.handle "N/A".toList, some "No post data".toList)], []⟩
    else if channels = [] then
      ⟨0, [(.handle "N/A".toList, some "No channels configured".toList)], []⟩
    else
      match d.thumbnail with
      | none => ⟨0, [], []⟩
      | some _ => broadcast_loop lookup send channels

/-- The result of the `post_now` branch of `handle_post_action`
(bot.py:273-286): the broadcast outcome is reported and the conversation ends;
the draft store entry is left as it was. -/
structure PostActionResult where
  store : Option PostData
  next : ConvState
  outcome : BroadcastOutcome

/-- The `post_now` branch of `handle_post_action` (bot.py:273-286): it runs
`post_to_channels`, reports the outcome and returns `ConversationHandler.END`;
it never deletes `posts_data[user_id]`. -/
def handle_post_action_post_now (store : Option PostData) (channels : List Chan)
    (lookup : Chan → LookupResult) (send : Chan → SendResult) : PostActionResult :=
  ⟨store, .END, post_to_channels store channels lookup send⟩

/-! ### The channel registry -/

/-- Python `str.isdigit()` (ASCII): nonempty and all digit characters. -/
def pyIsDigitStr (s : Str) : Bool := !s.isEmpty && s.all Char.isDigit

/-- The identifier normalization of `add_channel` (bot.py:620-634): an invite
link yields `'@' + last path component`; `-100...` or all-digits (possibly
after stripping leading dashes) is parsed as a numeric id (`none` models the
`ValueError` reply, which adds nothing); `@name` is kept; anything else gets an
`@` prepended. -/
def normalize_channel (input : Str) : Option Chan :=
  if strContains "t.me/".toList input || strContains "telegram.me/".toList input then
    some (.handle ('@' :: (pySplit '/' input).getLastD []))
  else if "-100".toList.isPrefixOf input || pyIsDigitStr (input.dropWhile (· == '-')) then
    match pyInt input with
    | some n => some (.id n)
    | none => none
  else if "@".toList.isPrefixOf input then
    some (.handle input)
  else
    some (.handle ('@' :: input))

/-- Reply of one `add_channel` invocation: the updated channel list, whether
the channel was newly added, and the admin verification reported to the user. -/
structure AddResult where
  channels : List Chan
  added : Bool
  verification : Bool × Option Str
deriving DecidableEq

/-- `add_channel` (bot.py:591-688) after normalization: the bot verifies its
admin status, then appends the channel only if it is not already in the user's
list; re-adding reports `added = false` together with the current verification
status instead of erroring.  `none` models the malformed-numeric-id reply. -/
def add_channel (chans : List Chan) (lookup : Chan → LookupResult) (input : Str) :
    Option AddResult :=
  match normalize_channel input with
  | none => none
  | some c =>
    let ver := verify_bot_admin (lookup c)
    if c ∈ chans then
      some ⟨chans, false, ver⟩
    else
      some ⟨chans ++ [c], true, ver⟩

/-- The channel-adding step of `handle_channel_forward` (bot.py:542-575): the
forwarded-from chat's numeric id is appended only when not already present. -/
def handle_channel_forward_add (chans : List Chan) (cid : Int) : List Chan × Bool :=
  if Chan.id cid ∈ chans then (chans, false) else (chans ++ [Chan.id cid], true)

/-- `remove_channel` (bot.py:746-792): removes the first occurrence if present
(Python `list.remove`), reporting whether anything was removed. -/
def remove_channel (chans : List Chan) (c : Chan) : List Chan × Bool :=
  if c ∈ chans then (chans.erase c, true) else (chans, false)

/-- `manage_channels` (bot.py:479-520): lists the stored channels in order,
pairing each with a live admin verification; a failing lookup is reported
inline, never aborting the listing. -/
def list_channels (chans : List Chan) (lookup : Chan → LookupResult) :
    List (Chan × (Bool × Option Str)) :=
  chans.map (fun c => (c, verify_bot_admin (lookup c)))

/-! ### Concrete fixtures used by witnesses and counterexamples -/

/-- A completed draft, as the wizard leaves it before the delivery choice. -/
def draft₀ : PostData :=
  ⟨some ⟨.photo, "file1".toList⟩, some "https://example.com/v".toList,
    some "Title".toList, none⟩

/-- A representable draft state whose dict is truthy but lacks the
`'thumbnail'` key. -/
def draftNoThumb : PostData :=
  ⟨none, some "https://example.com/v".toList, none, none⟩

/-- A platform in which every channel reports the bot as a full admin. -/
def lookupAllAdmin : Chan → LookupResult :=
  fun _ => .ok "administrator".toList (some true)

/-- A platform matching the spec scenario: numeric ids raise `Forbidden` on
lookup, handles report the bot as admin. -/
def lookupScen : Chan → LookupResult :=
  fun c => match c with
    | .id _ => .forbidden
    | .handle _ => .ok "administrator".toList (some true)

/-- A platform in which every send succeeds. -/
def sendAllOk : Chan → SendResult := fun _ => .ok

/-! ## Helper lemmas -/

theorem dropWhile_append_of_ne_nil {α} {p : α → Bool} {l₁ l₂ : List α}
    (h : l₁.dropWhile p ≠ []) : (l₁ ++ l₂).dropWhile p = l₁.dropWhile p ++ l₂ := by
  rw [List.dropWhile_append, if_neg]
  simpa using h

theorem pySplit_length (sep : Char) (l : Str) :
    (pySplit sep l).length = l.count sep + 1 := by
  induction l with
  | nil => rfl
  | cons c t ih =>
    by_cases h : c = sep
    · subst h
      simp [pySplit, List.count_cons, ih]
    · rcases hsp : pySplit sep t with _ | ⟨part, parts⟩
      · rw [hsp] at ih; simp at ih
      · rw [hsp] at ih
        simp only [List.length_cons] at ih
        simp [pySplit, h, hsp, List.count_cons]
        omega

theorem count_dropWhile_of_neg {α} [BEq α] [LawfulBEq α] {p : α → Bool} {a : α}
    (ha : p a = false) (l : List α) : (l.dropWhile p).count a = l.count a := by
  induction l with
  | nil => rfl
  | cons x t ih =>
    by_cases hx : p x
    · have hxa : (x == a) = false := by
        rw [beq_eq_false_iff_ne]
        intro heq
        rw [heq, ha] at hx
        exact Bool.false_ne_true hx
      rw [List.dropWhile_cons_of_pos hx, ih, List.count_cons, hxa]
      simp
    · rw [List.dropWhile_cons_of_neg hx]

theorem count_rstrip {a : Char} (ha : isPySpace a = false) (l : Str) :
    (rstrip l).count a = l.count a := by
  unfold rstrip
  rw [List.count_reverse, count_dropWhile_of_neg ha, List.count_reverse]

theorem count_pyStrip {a : Char} (ha : isPySpace a = false) (l : Str) :
    (pyStrip l).count a = l.count a := by
  unfold pyStrip lstrip
  rw [count_dropWhile_of_neg ha, count_rstrip ha]

/-! ## C5: the admin-verification decision table -/

/-- C5: `verify_bot_admin` implements the decision table: the owner status
(which the platform encodes as the string `creator`) is admin unconditionally;
an administrator with the can-post flag present and false is not admin for lack
of the post permission; an administrator with the flag true or absent is admin;
any other status is not admin with the raw status in the reason; a `Forbidden`
lookup means not a member; a `BadRequest` of the chat-not-found class means the
channel is gone. -/
theorem claim_C5 :
    (∀ cp, verify_bot_admin (.ok "creator".toList cp) = (true, none))
    ∧ verify_bot_admin (.ok "administrator".toList (some false))
        = (false, some "Bot doesn't have 'Post Messages' permission".toList)
    ∧ verify_bot_admin (.ok "administrator".toList (some true)) = (true, none)
    ∧ verify_bot_admin (.ok "administrator".toList none) = (true, none)
    ∧ (∀ status cp, status ≠ "administrator".toList → status ≠ "creator".toList →
        verify_bot_admin (.ok status cp)
          = (false, some ("Bot is not an admin (Status: ".toList ++ status ++ ")".toList)))
    ∧ (verify_bot_admin .forbidden
          = (false, some "Bot is not a member of this channel".toList)
        ∧ strContains "not a member".toList "Bot is not a member of this channel".toList = true)
    ∧ (∀ msg, strContains "chat not found".toList (pyLower msg) = true →
        verify_bot_admin (.badRequest msg)
          = (false, some "Channel not found or bot was removed".toList)) := by
  refine ⟨fun cp => rfl, by decide, by decide, by decide, ?_, ⟨rfl, by decide⟩, ?_⟩
  · intro status cp h1 h2
    simp only [verify_bot_admin]
    rw [if_neg (not_or.mpr ⟨h1, h2⟩)]
  · intro msg h
    simp only [verify_bot_admin]
    rw [if_pos h]

/-- Witness for C5 at concrete inputs: a plain `member` status and a concrete
chat-not-found error message. -/
theorem claim_C5_witness :
    verify_bot_admin (.ok "member".toList none)
        = (false, some ("Bot is not an admin (Status: ".toList ++ "member".toList ++ ")".toList))
    ∧ verify_bot_admin (.badRequest "Chat not found".toList)
        = (false, some "Channel not found or bot was removed".toList) :=
  ⟨claim_C5.2.2.2.2.1 "member".toList none (by decide) (by decide),
   claim_C5.2.2.2.2.2.2 "Chat not found".toList (by decide)⟩

/-! ## C7: schedule-time validation -/

/-- C7: in the schedule step, `"25:00"` and `"9:60"` (and every input that
fails to parse or is out of range) re-prompt in the same `CHANNELS` state with
the draft untouched, while `"09:00"` and `"23:59"` register a daily cron job at
that hour and minute and end the wizard. -/
theorem claim_C7 (d : PostData) :
    receive_schedule_time d "25:00".toList = ⟨d, .CHANNELS, none⟩
    ∧ receive_schedule_time d "9:60".toList = ⟨d, .CHANNELS, none⟩
    ∧ receive_schedule_time d "09:00".toList
        = ⟨{ d with schedule_time := some (9, 0) }, .END, some (9, 0)⟩
    ∧ receive_schedule_time d "23:59".toList
        = ⟨{ d with schedule_time := some (23, 59) }, .END, some (23, 59)⟩
    ∧ (∀ input, parse_schedule input = none →
        receive_schedule_time d input = ⟨d, .CHANNELS, none⟩)
    ∧ (∀ input hour minute, parse_schedule input = some (hour, minute) →
        ¬(0 ≤ hour ∧ hour ≤ 23 ∧ 0 ≤ minute ∧ minute ≤ 59) →
        receive_schedule_time d input = ⟨d, .CHANNELS, none⟩) := by
  have h25 : parse_schedule "25:00".toList = some (25, 0) := by decide
  have h960 : parse_schedule "9:60".toList = some (9, 60) := by decide
  have h09 : parse_schedule "09:00".toList = some (9, 0) := by decide
  have h2359 : parse_schedule "23:59".toList = some (23, 59) := by decide
  refine ⟨?_, ?_, ?_, ?_, ?_, ?_⟩
  · simp only [receive_schedule_time, h25]
    rw [if_neg (by omega)]
  · simp only [receive_schedule_time, h960]
    rw [if_neg (by omega)]
  · simp only [receive_schedule_time, h09]
    rw [if_pos (by omega)]
  · simp only [receive_schedule_time, h2359]
    rw [if_pos (by omega)]
  · intro input h
    simp [receive_schedule_time, h]
  · intro input hour minute hp hr
    simp only [receive_schedule_time, hp]
    rw [if_neg hr]

/-- Witness for C7: the rejection clauses applied at concrete inputs. -/
theorem claim_C7_witness :
    receive_schedule_time {} "25:00".toList = ⟨{}, .CHANNELS, none⟩
    ∧ receive_schedule_time {} "hello".toList = ⟨{}, .CHANNELS, none⟩ :=
  ⟨(claim_C7 {}).1, (claim_C7 {}).2.2.2.2.1 "hello".toList (by decide)⟩

/-! ## C10: the exact acceptance set of the schedule-time parser -/

/-- C10: the schedule step accepts exactly the Python parse — any string with
exactly one colon whose two parts parse as Python integers (whitespace and a
sign are tolerated) with hour 0–23 and minute 0–59 registers a daily schedule,
while any string with two or more colons is rejected with a re-prompt. -/
theorem claim_C10 (d : PostData) :
    (∀ input a b hour minute, pySplit ':' (pyStrip input) = [a, b] →
        pyInt a = some hour → pyInt b = some minute →
        0 ≤ hour → hour ≤ 23 → 0 ≤ minute → minute ≤ 59 →
        receive_schedule_time d input
          = ⟨{ d with schedule_time := some (hour, minute) }, .END, some (hour, minute)⟩)
    ∧ (∀ s : Str, (pySplit ':' s).length = s.count ':' + 1)
    ∧ (∀ input, 2 ≤ input.count ':' →
        receive_schedule_time d input = ⟨d, .CHANNELS, none⟩)
    ∧ receive_schedule_time d "+9:5".toList
        = ⟨{ d with schedule_time := some (9, 5) }, .END, some (9, 5)⟩
    ∧ receive_schedule_time d " 9 : 5 ".toList
        = ⟨{ d with schedule_time := some (9, 5) }, .END, some (9, 5)⟩
    ∧ receive_schedule_time d "10:30:45".toList = ⟨d, .CHANNELS, none⟩ := by
  refine ⟨?_, fun s => pySplit_length ':' s, ?_, ?_, ?_, ?_⟩
  · intro input a b hour minute hsp ha hb h1 h2 h3 h4
    have hparse : parse_schedule input = some (hour, minute) := by
      simp [parse_schedule, hsp, ha, hb]
    simp only [receive_schedule_time, hparse]
    rw [if_pos ⟨h1, h2, h3, h4⟩]
  · intro input hcount
    have h1 : (pyStrip input).count ':' = input.count ':' :=
      count_pyStrip (by decide) input
    have h2 : (pySplit ':' (pyStrip input)).length = input.count ':' + 1 := by
      rw [pySplit_length, h1]
    have hparse : parse_schedule input = none := by
      rcases hsp : pySplit ':' (pyStrip input) with _ | ⟨a, _ | ⟨b, _ | ⟨c, rest⟩⟩⟩
      · simp [parse_schedule, hsp]
      · simp [parse_schedule, hsp]
      · rw [hsp] at h2; simp at h2; omega
      · simp [parse_schedule, hsp]
    simp [receive_schedule_time, hparse]
  · have h : parse_schedule "+9:5".toList = some (9, 5) := by decide
    simp only [receive_schedule_time, h]
    rw [if_pos (by omega)]
  · have h : parse_schedule " 9 : 5 ".toList = some (9, 5) := by decide
    simp only [receive_schedule_time, h]
    rw [if_pos (by omega)]
  · have h : parse_schedule "10:30:45".toList = none := by decide
    simp only [receive_schedule_time, h]

/-- Witness for C10: the general acceptance clause applied to the split of
`" 7 : 30 "`. -/
theorem claim_C10_witness :
    receive_schedule_time {} " 7 : 30 ".toList
      = ⟨{ schedule_time := some (7, 30) }, .END, some (7, 30)⟩ :=
  (claim_C10 {}).1 " 7 : 30 ".toList "7 ".toList " 30".toList 7 30
    (by decide) (by decide) (by decide)
    (by decide) (by decide) (by decide) (by decide)

/-! ## C8: invalid wizard input leaves state and draft unchanged -/

/-- C8: a non-media payload in the thumbnail step, a link without an
`http://`/`https://` start, and a title longer than 100 characters each leave
the wizard state and the stored draft unchanged (no truncation, no saving),
while a title of exactly 100 characters is accepted. -/
theorem claim_C8 (d : PostData) :
    (∀ msg : Message, msg.photo = [] → msg.video = none → msg.animation = none →
        receive_thumbnail d msg = (d, .THUMBNAIL))
    ∧ (∀ text, "http://".toList.isPrefixOf (pyStrip text) = false →
        "https://".toList.isPrefixOf (pyStrip text) = false →
        receive_video_link d text = (d, .VIDEO_LINK))
    ∧ (∀ text, 100 < (pyStrip text).length →
        receive_title d text = (d, .TITLE))
    ∧ (∀ text, (pyStrip text).length = 100 →
        receive_title d text = ({ d with title := some (pyStrip text) }, .SCHEDULE_TIME)) := by
  refine ⟨?_, ?_, ?_, ?_⟩
  · intro msg h1 h2 h3
    simp [receive_thumbnail, h1, h2, h3]
  · intro text h1 h2
    simp only [receive_video_link]
    rw [h1, h2]
    rfl
  · intro text h
    simp only [receive_title]
    rw [if_pos (by omega)]
  · intro text h
    simp only [receive_title]
    rw [if_neg (by omega)]

/-- Witness for C8: a plain text message in the thumbnail step, an `ftp://`
link, a 101-character title and a 100-character title. -/
theorem claim_C8_witness :
    receive_thumbnail {} { text := "hi".toList } = ({}, .THUMBNAIL)
    ∧ receive_video_link {} "ftp://example.com".toList = ({}, .VIDEO_LINK)
    ∧ receive_title {} (List.replicate 101 'a') = ({}, .TITLE)
    ∧ receive_title {} (List.replicate 100 'a')
        = ({ title := some (pyStrip (List.replicate 100 'a')) }, .SCHEDULE_TIME) :=
  ⟨(claim_C8 {}).1 { text := "hi".toList } rfl rfl rfl,
   (claim_C8 {}).2.1 "ftp://example.com".toList (by decide) (by decide),
   (claim_C8 {}).2.2.1 (List.replicate 101 'a') (by decide),
   (claim_C8 {}).2.2.2 (List.replicate 100 'a') (by decide)⟩

/-! ## C2: broadcast preconditions short-circuit with no platform calls -/

/-- C2: with an absent (or empty, hence falsy) draft or an empty channel list,
`post_to_channels` returns 0 successes and exactly one synthetic `"N/A"`
failure naming the failed precondition, and its platform-call trace is empty:
no membership lookup and no send. -/
theorem claim_C2 (lookup : Chan → LookupResult) (send : Chan → SendResult) :
    (∀ channels, post_to_channels none channels lookup send
        = ⟨0, [(.handle "N/A".toList, some "No post data".toList)], []⟩)
    ∧ (∀ d, d.isFalsy = false → post_to_channels (some d) [] lookup send
        = ⟨0, [(.handle "N/A".toList, some "No channels configured".toList)], []⟩)
    ∧ (∀ channels d, d.isFalsy = true → post_to_channels (some d) channels lookup send
        = ⟨0, [(.handle "N/A".toList, some "No post data".toList)], []⟩) := by
  refine ⟨fun channels => rfl, ?_, ?_⟩
  · intro d h
    simp [post_to_channels, h]
  · intro channels d h
    simp [post_to_channels, h]

/-- Witness for C2: a complete draft with an empty channel list, on a platform
where every lookup and send would succeed. -/
theorem claim_C2_witness :
    post_to_channels (some draft₀) [] lookupAllAdmin sendAllOk
      = ⟨0, [(.handle "N/A".toList, some "No channels configured".toList)], []⟩ :=
  (claim_C2 lookupAllAdmin sendAllOk).2.1 draft₀ (by decide)

/-! ## C9: draft lifecycle on cancel and on immediate post -/

/-- Counterexample to C9 as stated: after a fully successful immediate post
(one channel, send succeeded, no failures), the draft is still in the store —
`handle_post_action` never deletes `posts_data[user_id]` — and a subsequent
broadcast still finds and posts the same draft instead of reporting
`"No post data"`. -/
theorem claim_C9_cex :
    (handle_post_action_post_now (some draft₀) [Chan.handle "@pub".toList]
        lookupAllAdmin sendAllOk).outcome.succeeded = 1
    ∧ (handle_post_action_post_now (some draft₀) [Chan.handle "@pub".toList]
        lookupAllAdmin sendAllOk).outcome.failures = []
    ∧ (handle_post_action_post_now (some draft₀) [Chan.handle "@pub".toList]
        lookupAllAdmin sendAllOk).store = some draft₀
    ∧ (post_to_channels
        (handle_post_action_post_now (some draft₀) [Chan.handle "@pub".toList]
          lookupAllAdmin sendAllOk).store
        [Chan.handle "@pub".toList] lookupAllAdmin sendAllOk).succeeded = 1 := by
  refine ⟨?_, ?_, rfl, ?_⟩ <;> decide

/-- C9 amended: the draft is destroyed when the user cancels — after which a
subsequent broadcast finds no draft — but a successful immediate post does NOT
destroy it: `handle_post_action` leaves the draft store unchanged. -/
theorem claim_C9 :
    (∀ store, cancel store = (none, ConvState.END))
    ∧ (∀ store channels lookup send,
        post_to_channels (cancel store).1 channels lookup send
          = ⟨0, [(.handle "N/A".toList, some "No post data".toList)], []⟩)
    ∧ (∀ store channels lookup send,
        (handle_post_action_post_now store channels lookup send).store = store) := by
  exact ⟨fun _ => rfl, fun _ _ _ _ => rfl, fun _ _ _ _ => rfl⟩

/-! ## Broadcast-loop lemmas -/

theorem broadcast_loop_total (lookup : Chan → LookupResult) (send : Chan → SendResult)
    (channels : List Chan) :
    (broadcast_loop lookup send channels).succeeded
      + (broadcast_loop lookup send channels).failures.length = channels.length := by
  induction channels with
  | nil => rfl
  | cons c rest ih =>
    simp only [broadcast_loop]
    cases hadm : (verify_bot_admin (lookup c)).1 <;>
      cases hs : send c <;>
        simp [hadm, hs] <;> omega

theorem broadcast_loop_calls (lookup : Chan → LookupResult) (send : Chan → SendResult)
    (channels : List Chan) :
    (broadcast_loop lookup send channels).calls.filterMap callChan = channels := by
  induction channels with
  | nil => rfl
  | cons c rest ih =>
    simp only [broadcast_loop]
    cases hadm : (verify_bot_admin (lookup c)).1 <;>
      cases hs : send c <;>
        simp [hadm, hs, List.filterMap_cons, callChan, ih]

theorem broadcast_loop_ok_succeeded (lookup : Chan → LookupResult)
    (send : Chan → SendResult) (hok : ∀ c, send c = SendResult.ok)
    (channels : List Chan) :
    (broadcast_loop lookup send channels).succeeded
      = (channels.filter (fun c => (verify_bot_admin (lookup c)).1)).length := by
  induction channels with
  | nil => rfl
  | cons c rest ih =>
    simp only [broadcast_loop]
    cases hadm : (verify_bot_admin (lookup c)).1 <;>
      simp [hadm, hok c, List.filter_cons, ih]

theorem broadcast_loop_ok_failures (lookup : Chan → LookupResult)
    (send : Chan → SendResult) (hok : ∀ c, send c = SendResult.ok)
    (channels : List Chan) :
    (broadcast_loop lookup send channels).failures
      = (channels.filter (fun c => !(verify_bot_admin (lookup c)).1)).map
          (fun c => (c, (verify_bot_admin (lookup c)).2)) := by
  induction channels with
  | nil => rfl
  | cons c rest ih =>
    simp only [broadcast_loop]
    cases hadm : (verify_bot_admin (lookup c)).1 <;>
      simp [hadm, hok c, List.filter_cons, ih]

theorem length_filter_not_add {α} (p : α → Bool) (l : List α) :
    (l.filter p).length + (l.filter (fun a => !p a)).length = l.length := by
  induction l with
  | nil => rfl
  | cons a t ih =>
    cases h : p a <;> simp [List.filter_cons, h] <;> omega

/-! ## C1: success/failure accounting of the broadcast loop -/

/-- Counterexample to C1 as stated: for the empty channel list (N = 0, so
K = 0 channels fail verification and all remaining sends vacuously succeed),
the claim demands `succeeded = 0` and exactly 0 failure entries, but
`post_to_channels` returns one synthetic failure entry. -/
theorem claim_C1_cex :
    (([] : List Chan).filter (fun c => !(verify_bot_admin (lookupAllAdmin c)).1)) = []
    ∧ (post_to_channels (some draft₀) [] lookupAllAdmin sendAllOk).succeeded = 0
    ∧ (post_to_channels (some draft₀) [] lookupAllAdmin sendAllOk).failures.length = 1 := by
  refine ⟨rfl, ?_, ?_⟩ <;> decide

/-- C1 amended: for every draft with a thumbnail and every NONEMPTY channel
list of size N on which K channels fail admin verification and all remaining
sends succeed, the broadcast returns `succeeded = N - K` and exactly the K
failing channels paired with their verification reasons, in stored order. -/
theorem claim_C1 (lookup : Chan → LookupResult) (send : Chan → SendResult)
    (d : PostData) (th : Thumbnail) (channels : List Chan)
    (hth : d.thumbnail = some th) (hne : channels ≠ [])
    (hok : ∀ c, send c = SendResult.ok) :
    (post_to_channels (some d) channels lookup send).succeeded
        = channels.length
          - (channels.filter (fun c => !(verify_bot_admin (lookup c)).1)).length
    ∧ (post_to_channels (some d) channels lookup send).failures
        = (channels.filter (fun c => !(verify_bot_admin (lookup c)).1)).map
            (fun c => (c, (verify_bot_admin (lookup c)).2)) := by
  have hfalsy : d.isFalsy = false := by
    simp [PostData.isFalsy, hth]
  have hred : post_to_channels (some d) channels lookup send
      = broadcast_loop lookup send channels := by
    simp [post_to_channels, hfalsy, hne, hth]
  rw [hred]
  constructor
  · rw [broadcast_loop_ok_succeeded lookup send hok]
    have := length_filter_not_add (fun c => (verify_bot_admin (lookup c)).1) channels
    simp only [Bool.not_eq_true'] at this ⊢
    omega
  · exact broadcast_loop_ok_failures lookup send hok channels

/-- Witness for C1 (amended), which is also the spec's scenario: channels
`[100, "@pub"]` where the lookup for `100` raises `Forbidden` and the send to
`"@pub"` succeeds — one success and one failure naming channel 100. -/
theorem claim_C1_witness :
    (post_to_channels (some draft₀) [Chan.id 100, Chan.handle "@pub".toList]
        lookupScen sendAllOk).succeeded = 1
    ∧ (post_to_channels (some draft₀) [Chan.id 100, Chan.handle "@pub".toList]
        lookupScen sendAllOk).failures
      = [(Chan.id 100, some "Bot is not a member of this channel".toList)] := by
  have h := claim_C1 lookupScen sendAllOk draft₀ ⟨.photo, "file1".toList⟩
    [Chan.id 100, Chan.handle "@pub".toList] rfl (by decide) (fun _ => rfl)
  constructor
  · rw [h.1]; decide
  · rw [h.2]; decide

/-! ## C3: per-channel error containment -/

/-- Counterexample to C3 as stated: a truthy draft without a `'thumbnail'` key
triggers a `KeyError` (bot.py:370) outside the per-channel handlers; the outer
catch-all returns the accumulated outcome — which contains NO catch-all
failure entry (`failures = []`), rather than folding the fault into the
outcome as a failure entry. -/
theorem claim_C3_cex :
    post_to_channels (some draftNoThumb) [Chan.handle "@pub".toList]
        lookupAllAdmin sendAllOk
      = ⟨0, [], []⟩ := by
  decide

/-- C3 amended: the broadcast never raises to its caller.  Every channel
yields exactly one outcome (success or recorded failure), and every channel in
the list is attempted — the call trace holds one membership lookup per channel,
in order, regardless of earlier failures.  An unexpected internal fault outside
the per-channel handlers (a truthy draft with no thumbnail) is caught and the
outcome accumulated so far is returned, with no additional failure entry. -/
theorem claim_C3 (lookup : Chan → LookupResult) (send : Chan → SendResult)
    (channels : List Chan) (hne : channels ≠ []) :
    (∀ (d : PostData) (th : Thumbnail), d.thumbnail = some th →
        (post_to_channels (some d) channels lookup send).succeeded
            + (post_to_channels (some d) channels lookup send).failures.length
          = channels.length
        ∧ (post_to_channels (some d) channels lookup send).calls.filterMap callChan
          = channels)
    ∧ (∀ l : Str,
        post_to_channels (some ⟨none, some l, none, none⟩) channels lookup send
          = ⟨0, [], []⟩) := by
  constructor
  · intro d th hth
    have hfalsy : d.isFalsy = false := by
      simp [PostData.isFalsy, hth]
    have hred : post_to_channels (some d) channels lookup send
        = broadcast_loop lookup send channels := by
      simp [post_to_channels, hfalsy, hne, hth]
    rw [hred]
    exact ⟨broadcast_loop_total lookup send channels,
           broadcast_loop_calls lookup send channels⟩
  · intro l
    simp [post_to_channels, PostData.isFalsy, hne]

/-- Witness for C3 (amended): two channels, the first failing verification,
the second succeeding — both are attempted and each yields one outcome. -/
theorem claim_C3_witness :
    (post_to_channels (some draft₀) [Chan.id 100, Chan.handle "@pub".toList]
        lookupScen sendAllOk).succeeded
      + (post_to_channels (some draft₀) [Chan.id 100, Chan.handle "@pub".toList]
          lookupScen sendAllOk).failures.length
      = [Chan.id 100, Chan.handle "@pub".toList].length
    ∧ (post_to_channels (some draft₀) [Chan.id 100, Chan.handle "@pub".toList]
        lookupScen sendAllOk).calls.filterMap callChan
      = [Chan.id 100, Chan.handle "@pub".toList] :=
  (claim_C3 lookupScen sendAllOk [Chan.id 100, Chan.handle "@pub".toList]
    (by decide)).1 draft₀ ⟨.photo, "file1".toList⟩ rfl

/-! ## C6: the channel registry keeps each channel at most once -/

theorem nodup_append_singleton {α} {l : List α} {c : α}
    (hnot : c ∉ l) (hnd : l.Nodup) : (l ++ [c]).Nodup := by
  rw [List.nodup_append]
  refine ⟨hnd, List.nodup_singleton c, ?_⟩
  intro a ha hc
  rw [List.mem_singleton] at hc
  subst hc
  exact hnot ha

/-- C6: adding the same identifier twice yields `added = true` then
`added = false`, with the second call reporting the verification status
computed then rather than erroring; the resulting list holds the channel
exactly once and the listing therefore shows exactly one entry for it; and
every registry operation (add by command, add by forwarded message, remove)
preserves the no-duplicates invariant. -/
theorem claim_C6 (chans : List Chan) (lookup lookup' : Chan → LookupResult)
    (input : Str) (c : Chan)
    (hnorm : normalize_channel input = some c) (hnot : c ∉ chans)
    (hnd : chans.Nodup) :
    add_channel chans lookup input
        = some ⟨chans ++ [c], true, verify_bot_admin (lookup c)⟩
    ∧ add_channel (chans ++ [c]) lookup' input
        = some ⟨chans ++ [c], false, verify_bot_admin (lookup' c)⟩
    ∧ (chans ++ [c]).count c = 1
    ∧ (list_channels (chans ++ [c]) lookup').countP (fun e => e.1 == c) = 1
    ∧ (chans ++ [c]).Nodup
    ∧ (∀ (l : List Chan) lk inp r, l.Nodup → add_channel l lk inp = some r →
        r.channels.Nodup)
    ∧ (∀ (l : List Chan) (cid : Int), l.Nodup →
        (handle_channel_forward_add l cid).1.Nodup)
    ∧ (∀ (l : List Chan) (c' : Chan), l.Nodup → (remove_channel l c').1.Nodup) := by
  refine ⟨?_, ?_, ?_, ?_, nodup_append_singleton hnot hnd, ?_, ?_, ?_⟩
  · simp only [add_channel, hnorm]
    rw [if_neg hnot]
  · simp only [add_channel, hnorm]
    rw [if_pos (by simp)]
  · rw [List.count_append, List.count_eq_zero.mpr hnot]
    simp
  · rw [list_channels, List.countP_map]
    simp [List.countP_append]
    exact fun a ha hac => hnot (hac ▸ ha)
  · intro l lk inp r hl hr
    rcases hn : normalize_channel inp with _ | c'
    · simp [add_channel, hn] at hr
    · simp only [add_channel, hn] at hr
      by_cases hc : c' ∈ l
      · rw [if_pos hc] at hr
        injection hr with h
        subst h
        exact hl
      · rw [if_neg hc] at hr
        injection hr with h
        subst h
        exact nodup_append_singleton hc hl
  · intro l cid hl
    simp only [handle_channel_forward_add]
    by_cases hc : Chan.id cid ∈ l
    · rw [if_pos hc]; exact hl
    · rw [if_neg hc]; exact nodup_append_singleton hc hl
  · intro l c' hl
    simp only [remove_channel]
    by_cases hc : c' ∈ l
    · rw [if_pos hc]; exact hl.erase c'
    · rw [if_neg hc]; exact hl

/-- Witness for C6: adding `"@chan"` twice to an empty registry. -/
theorem claim_C6_witness :
    add_channel [] lookupScen "@chan".toList
      = some ⟨[] ++ [Chan.handle "@chan".toList], true,
          verify_bot_admin (lookupScen (Chan.handle "@chan".toList))⟩
    ∧ add_channel ([] ++ [Chan.handle "@chan".toList]) lookupScen "@chan".toList
      = some ⟨[] ++ [Chan.handle "@chan".toList], false,
          verify_bot_admin (lookupScen (Chan.handle "@chan".toList))⟩
    ∧ ([] ++ [Chan.handle "@chan".toList]).count (Chan.handle "@chan".toList) = 1 := by
  have h := claim_C6 [] lookupScen lookupScen "@chan".toList
    (Chan.handle "@chan".toList) (by decide) (by simp) List.nodup_nil
  exact ⟨h.1, h.2.1, h.2.2.1⟩

/-! ## C4: markdown escaping -/

theorem foldl_replace_eq (l : List Char) (hnd : l.Nodup) (hb : '\\' ∉ l) :
    ∀ t : Str, l.foldl (fun s c => replaceChar c s) t
      = t.flatMap (fun ch => if ch ∈ l then ['\\', ch] else [ch]) := by
  induction l with
  | nil =>
    intro t
    simp
  | cons c l ih =>
    intro t
    have hnd' : l.Nodup := hnd.of_cons
    have hcl : c ∉ l := (List.nodup_cons.mp hnd).1
    have hbl : '\\' ∉ l := fun h => hb (List.mem_cons_of_mem c h)
    have hbc : ('\\' : Char) ≠ c := fun h => hb (h ▸ List.mem_cons_self c l)
    simp only [List.foldl_cons]
    rw [ih hnd' hbl (replaceChar c t), replaceChar, List.flatMap_assoc]
    refine congrArg (List.flatMap t) (funext fun ch => ?_)
    by_cases hch : ch = c
    · subst hch
      simp [List.mem_cons, hcl, hbl, hbc]
    · simp [List.mem_cons, hch]

theorem escape_markdown_eq (t : Str) : escape_markdown t = t.flatMap escSingle := by
  rw [escape_markdown, foldl_replace_eq escape_chars (by decide) (by decide) t]
  rfl

theorem noUnescapedAux_flatMap (t : Str) :
    ∀ p, noUnescapedAux p (t.flatMap escSingle) = true := by
  induction t with
  | nil => intro p; rfl
  | cons c rest ih =>
    intro p
    by_cases hc : c ∈ escape_chars
    · have hb : isReserved '\\' = false := by decide
      simp only [List.flatMap_cons, escSingle, if_pos hc, List.cons_append,
        List.nil_append, noUnescapedAux]
      simp [hb, ih c]
    · have hr : isReserved c = false := by simp [isReserved, hc]
      simp only [List.flatMap_cons, escSingle, if_neg hc, List.cons_append,
        List.nil_append, noUnescapedAux]
      simp [hr, ih c]

theorem noUnescaped_escape (t : Str) : noUnescaped (escape_markdown t) = true := by
  rw [escape_markdown_eq]
  cases t with
  | nil => rfl
  | cons c rest =>
    by_cases hc : c ∈ escape_chars
    · have hb : isReserved '\\' = false := by decide
      simp only [List.flatMap_cons, escSingle, if_pos hc, List.cons_append,
        List.nil_append, noUnescaped, noUnescapedAux]
      simp [hb, noUnescapedAux_flatMap rest c]
    · have hr : isReserved c = false := by simp [isReserved, hc]
      simp only [List.flatMap_cons, escSingle, if_neg hc, List.cons_append,
        List.nil_append, noUnescaped]
      simp [hr, noUnescapedAux_flatMap rest c]

theorem length_flatMap_escSingle (t : Str) :
    (t.flatMap escSingle).length = t.length + t.countP isReserved := by
  induction t with
  | nil => rfl
  | cons c rest ih =>
    by_cases hc : c ∈ escape_chars
    · have hr : isReserved c = true := by simp [isReserved, hc]
      simp [escSingle, if_pos hc, List.countP_cons, hr, ih]
      omega
    · have hr : isReserved c = false := by simp [isReserved, hc]
      simp [escSingle, if_neg hc, List.countP_cons, hr, ih]
      omega

theorem countP_flatMap_escSingle (t : Str) :
    (t.flatMap escSingle).countP isReserved = t.countP isReserved := by
  induction t with
  | nil => rfl
  | cons c rest ih =>
    by_cases hc : c ∈ escape_chars
    · have hr : isReserved c = true := by simp [isReserved, hc]
      have hb : isReserved '\\' = false := by decide
      simp [escSingle, if_pos hc, List.countP_cons, hr, hb, ih]
    · have hr : isReserved c = false := by simp [isReserved, hc]
      simp [escSingle, if_neg hc, List.countP_cons, hr, ih]

theorem escape_markdown_not_idem (s : Str) (hs : s.any isReserved = true) :
    escape_markdown (escape_markdown s) ≠ escape_markdown s := by
  have hpos : 0 < s.countP isReserved := by
    rw [List.countP_pos_iff]
    rcases List.any_eq_true.mp hs with ⟨a, ha, hpa⟩
    exact ⟨a, ha, hpa⟩
  intro heq
  have hlen := congrArg List.length heq
  rw [escape_markdown_eq (escape_markdown s),
    length_flatMap_escSingle (escape_markdown s), escape_markdown_eq s,
    countP_flatMap_escSingle s] at hlen
  omega

theorem rstrip_append {A T : Str} (h : T.reverse.dropWhile isPySpace ≠ []) :
    rstrip (A ++ T) = A ++ rstrip T := by
  unfold rstrip
  rw [List.reverse_append, dropWhile_append_of_ne_nil h, List.reverse_append,
    List.reverse_reverse]

theorem lstrip_append {T B : Str} (h : T.dropWhile isPySpace ≠ []) :
    lstrip (T ++ B) = lstrip T ++ B :=
  dropWhile_append_of_ne_nil h

theorem format_post_decomp (title link : Str) (th : Option Thumbnail)
    (st : Option (Int × Int)) :
    format_post ⟨th, some link, some title, st⟩
      = lstrip post_template_1 ++ escape_markdown title ++ post_template_2
        ++ escape_markdown link ++ rstrip post_template_3 := by
  have h3 : post_template_3.reverse.dropWhile isPySpace ≠ [] := by decide
  have h1 : post_template_1.dropWhile isPySpace ≠ [] := by decide
  show pyStrip (post_template_1 ++ escape_markdown title ++ post_template_2
      ++ escape_markdown link ++ post_template_3) = _
  unfold pyStrip
  rw [show post_template_1 ++ escape_markdown title ++ post_template_2
        ++ escape_markdown link ++ post_template_3
      = (post_template_1 ++ (escape_markdown title ++ (post_template_2
        ++ escape_markdown link))) ++ post_template_3 by simp [List.append_assoc]]
  rw [rstrip_append h3]
  rw [show (post_template_1 ++ (escape_markdown title ++ (post_template_2
        ++ escape_markdown link))) ++ rstrip post_template_3
      = post_template_1 ++ ((escape_markdown title ++ (post_template_2
        ++ escape_markdown link)) ++ rstrip post_template_3)
      by simp [List.append_assoc]]
  rw [lstrip_append h1]
  simp [List.append_assoc]

/-- C4: the rendered post body is the fixed (stripped) template with the
escaped title and escaped link interpolated; every reserved character in those
user-originating segments is immediately preceded by a backslash; and escaping
is single-pass, not idempotent — a second application of `escape_markdown` to
any string holding a reserved character changes it again. -/
theorem claim_C4 (title link s : Str) (hs : s.any isReserved = true) :
    (∀ (th : Option Thumbnail) (st : Option (Int × Int)),
        format_post ⟨th, some link, some title, st⟩
          = lstrip post_template_1 ++ escape_markdown title ++ post_template_2
            ++ escape_markdown link ++ rstrip post_template_3)
    ∧ noUnescaped (escape_markdown title) = true
    ∧ noUnescaped (escape_markdown link) = true
    ∧ escape_markdown (escape_markdown s) ≠ escape_markdown s :=
  ⟨fun th st => format_post_decomp title link th st,
   noUnescaped_escape title, noUnescaped_escape link,
   escape_markdown_not_idem s hs⟩

/-- Witness for C4: a title holding every reserved character, a link, and the
underscore as the doubly-escaped string. -/
theorem claim_C4_witness :
    noUnescaped (escape_markdown "_*[]()~>#+-=|{}.!".toList) = true
    ∧ escape_markdown (escape_markdown "_".toList) ≠ escape_markdown "_".toList :=
  ⟨(claim_C4 "_*[]()~>#+-=|{}.!".toList "https://x.y/v".toList "_".toList
      (by decide)).2.1,
   (claim_C4 "_*[]()~>#+-=|{}.!".toList "https://x.y/v".toList "_".toList
      (by decide)).2.2.2⟩

end AutoPostBot
